import Mathlib

/-!
Shallow embedding of `arrctl` (src/main.rs), an MSR read/write tool for
Arrandale CPUs.  Registers are 64-bit words modelled as `Nat`; the bit-field
accessors and mutators follow the `bitfield!` declarations in the source: a
getter for bits `hi..lo` extracts `(x >> lo) % 2^(hi-lo+1)`, and a setter
replaces exactly those bits by the (silently truncated) new value, leaving
the rest of the word unchanged.  `main`'s control flow is embedded as
`execute`, which returns the result, the final register state, and the trace
of MSR accesses performed, in program order.
-/

namespace Arrctl

/-- Extract the `width`-bit field of `x` that starts at bit `lo`. -/
def getBits (x lo width : Nat) : Nat := x / 2 ^ lo % 2 ^ width

/-- Replace the `width`-bit field of `x` starting at bit `lo` by `v`,
truncating `v` to `width` bits: the semantics of the setters generated by
the `bitfield` crate (`(x & !(mask << lo)) | ((v & mask) << lo)`), written
in sum form over `Nat`. -/
def setBits (x lo width v : Nat) : Nat :=
  x % 2 ^ lo + v % 2 ^ width * 2 ^ lo + x / 2 ^ (lo + width) * 2 ^ (lo + width)

/-- MSR addresses, from the constants in src/main.rs. -/
def MSR_PLATFORM_INFO : Nat := 0xce

def IA32_MISC_ENABLE : Nat := 0x1a0

def MSR_TEMPERATURE_TARGET : Nat := 0x1a2

def MSR_TURBO_LIMITS : Nat := 0x1ac

def MSR_TURBO_RATIOS : Nat := 0x1ad

/-- `MsrPlatformInfo(u64)`: typed view over the raw platform-info word. -/
structure MsrPlatformInfo where
  val : Nat
deriving DecidableEq

def MsrPlatformInfo.decode (r : Nat) : MsrPlatformInfo := ⟨r⟩

/-- Bit 29 of MSR_PLATFORM_INFO: `programmable_tdc_tdp, _: 29;`. -/
def MsrPlatformInfo.programmable_tdc_tdp (m : MsrPlatformInfo) : Bool :=
  getBits m.val 29 1 != 0

/-- `MsrTemperatureTarget(u64)`: typed view, field `get, _: 23, 16;`. -/
structure MsrTemperatureTarget where
  val : Nat
deriving DecidableEq

def MsrTemperatureTarget.decode (r : Nat) : MsrTemperatureTarget := ⟨r⟩

def MsrTemperatureTarget.get (m : MsrTemperatureTarget) : Nat := getBits m.val 16 8

/-- `MsrTurboLimits(u64)`: typed view with fields
`tdp: 14,0`, `tdp_override: 15`, `tdc: 30,16`, `tdc_override: 31`. -/
structure MsrTurboLimits where
  val : Nat
deriving DecidableEq

def MsrTurboLimits.decode (r : Nat) : MsrTurboLimits := ⟨r⟩

/-- Writing the typed view back out: the view is the raw word itself. -/
def MsrTurboLimits.encode (m : MsrTurboLimits) : Nat := m.val

def MsrTurboLimits.tdp (m : MsrTurboLimits) : Nat := getBits m.val 0 15

def MsrTurboLimits.tdp_override (m : MsrTurboLimits) : Bool := getBits m.val 15 1 != 0

def MsrTurboLimits.tdc (m : MsrTurboLimits) : Nat := getBits m.val 16 15

def MsrTurboLimits.tdc_override (m : MsrTurboLimits) : Bool := getBits m.val 31 1 != 0

def MsrTurboLimits.set_tdp (m : MsrTurboLimits) (v : Nat) : MsrTurboLimits :=
  ⟨setBits m.val 0 15 v⟩

def MsrTurboLimits.set_tdp_override (m : MsrTurboLimits) (b : Bool) : MsrTurboLimits :=
  ⟨setBits m.val 15 1 (if b then 1 else 0)⟩

def MsrTurboLimits.set_tdc (m : MsrTurboLimits) (v : Nat) : MsrTurboLimits :=
  ⟨setBits m.val 16 15 v⟩

def MsrTurboLimits.set_tdc_override (m : MsrTurboLimits) (b : Bool) : MsrTurboLimits :=
  ⟨setBits m.val 31 1 (if b then 1 else 0)⟩

/-- `MsrTurboRatios(u64)`: typed view with the four byte-wide per-core-count
fields `one_core: 7,0`, `two_cores: 15,8`, `three_cores: 23,16`,
`four_cores: 31,24`. -/
structure MsrTurboRatios where
  val : Nat
deriving DecidableEq

def MsrTurboRatios.decode (r : Nat) : MsrTurboRatios := ⟨r⟩

def MsrTurboRatios.one_core (m : MsrTurboRatios) : Nat := getBits m.val 0 8

def MsrTurboRatios.two_cores (m : MsrTurboRatios) : Nat := getBits m.val 8 8

def MsrTurboRatios.three_cores (m : MsrTurboRatios) : Nat := getBits m.val 16 8

def MsrTurboRatios.four_cores (m : MsrTurboRatios) : Nat := getBits m.val 24 8

/-- The parsed command line of src/main.rs (`struct Cli`). -/
structure Cli where
  get_tdp : Bool
  get_tdc : Bool
  get_tjmax : Bool
  get_turbo_ratios : Bool
  set_tdp : Option Nat
  set_tdc : Option Nat
deriving DecidableEq

/-- CPU identity as consumed by `ensure_cpu_good`. -/
structure CpuInfo where
  vendor : String
  extended_family_id : Nat
  family_id : Nat
  model_id : Nat
deriving DecidableEq

/-- `ensure_cpu_good` succeeds (does not panic) iff the vendor is
"GenuineIntel" and the family/model signature is Arrandale
(extended family 0, family 6, model 0x25). -/
def ensure_cpu_good (c : CpuInfo) : Bool :=
  c.vendor == "GenuineIntel" &&
  c.extended_family_id == 0 && c.family_id == 6 && c.model_id == 37

/-- The ways `main` can terminate unsuccessfully. -/
inductive Error where
  | insufficientPrivilege
  | unsupportedPlatform
  | conflictingRequest
  | unsupportedOperation
deriving DecidableEq

/-- One printed line of output.  TDP/TDC values carry the printed physical
quantity `raw / 8.0` as an exact rational: all raw field values are below
`2^15` and hence exactly representable in `f32`, and division by `8.0` is
exact in binary floating point, so `ℚ` models the `as f32 / 8.0` of the
source without rounding. -/
inductive ReportItem where
  | maxTurboTdp (watts : ℚ)
  | turboTdpOverrideStatus (b : Bool)
  | maxTurboTdc (amps : ℚ)
  | tjmaxCelsius (v : Nat)
  | maxRatioOneCore (v : Nat)
  | maxRatioTwoCores (v : Nat)
  | maxRatioThreeCores (v : Nat)
  | maxRatioFourCores (v : Nat)
deriving DecidableEq

/-- The raw 64-bit contents of the five MSRs the program knows about. -/
structure Regs where
  platform_info : Nat
  misc_enable : Nat
  temperature_target : Nat
  turbo_limits : Nat
  turbo_ratios : Nat
deriving DecidableEq

/-- An MSR access: `read addr core` or `write addr core value`. -/
inductive Event where
  | read (addr : Nat) (core : Nat)
  | write (addr : Nat) (core : Nat) (val : Nat)
deriving DecidableEq

def Event.isWrite : Event → Bool
  | .write _ _ _ => true
  | .read _ _ => false

def writesIn (tr : List Event) : List Event := tr.filter Event.isWrite

/-- The in-memory mutation of the TurboLimits view performed by lines
151-158 of src/main.rs: `set_tdp(tdp * 8); set_tdp_override(true)` when
`--set-tdp` is present, then `set_tdc(tdc * 8); set_tdc_override(true)`
when `--set-tdc` is present.  The `% 2^64` is the `u64` multiplication. -/
def mutatedLimits (args : Cli) (tl : MsrTurboLimits) : MsrTurboLimits :=
  let tl1 := match args.set_tdp with
    | some v => (tl.set_tdp (v * 8 % 2 ^ 64)).set_tdp_override true
    | none => tl
  match args.set_tdc with
  | some v => (tl1.set_tdc (v * 8 % 2 ^ 64)).set_tdc_override true
  | none => tl1

/-- Lines 141-162 of src/main.rs: if any TDP/TDC get or set was requested,
read MSR_TURBO_LIMITS, print the requested values, apply the mutations and,
if at least one set was requested, write the mutated word back.  Note that
the `get_tdc` branch of the source prints `tdp_override` (line 149), not
`tdc_override`; the embedding reproduces that. -/
def turboLimitsStage (args : Cli) (regs : Regs) :
    List ReportItem × Regs × List Event :=
  if args.get_tdp || args.get_tdc || args.set_tdp.isSome || args.set_tdc.isSome then
    let tl := MsrTurboLimits.decode regs.turbo_limits
    let rep :=
      (if args.get_tdp then
        [ReportItem.maxTurboTdp ((tl.tdp : ℚ) / 8),
         ReportItem.turboTdpOverrideStatus tl.tdp_override]
      else []) ++
      (if args.get_tdc then
        [ReportItem.maxTurboTdc ((tl.tdc : ℚ) / 8),
         ReportItem.turboTdpOverrideStatus tl.tdp_override]
      else [])
    let tl2 := mutatedLimits args tl
    if args.set_tdp.isSome || args.set_tdc.isSome then
      (rep,
       ⟨regs.platform_info, regs.misc_enable, regs.temperature_target,
        tl2.val, regs.turbo_ratios⟩,
       [Event.read MSR_TURBO_LIMITS 0, Event.write MSR_TURBO_LIMITS 0 tl2.val])
    else
      (rep, regs, [Event.read MSR_TURBO_LIMITS 0])
  else ([], regs, [])

/-- Lines 164-167: if `--get-tjmax`, read MSR_TEMPERATURE_TARGET and print
its `get` field verbatim. -/
def tjmaxStage (args : Cli) (regs : Regs) : List ReportItem × List Event :=
  if args.get_tjmax then
    ([ReportItem.tjmaxCelsius (MsrTemperatureTarget.decode regs.temperature_target).get],
     [Event.read MSR_TEMPERATURE_TARGET 0])
  else ([], [])

/-- Lines 169-184: if `--get-turbo-ratios`, read MSR_TURBO_RATIOS and print
each per-core-count field that is non-zero, suppressing zero fields. -/
def ratiosStage (args : Cli) (regs : Regs) : List ReportItem × List Event :=
  if args.get_turbo_ratios then
    let r := MsrTurboRatios.decode regs.turbo_ratios
    ((if r.one_core ≠ 0 then [ReportItem.maxRatioOneCore r.one_core] else []) ++
     (if r.two_cores ≠ 0 then [ReportItem.maxRatioTwoCores r.two_cores] else []) ++
     (if r.three_cores ≠ 0 then [ReportItem.maxRatioThreeCores r.three_cores] else []) ++
     (if r.four_cores ≠ 0 then [ReportItem.maxRatioFourCores r.four_cores] else []),
     [Event.read MSR_TURBO_RATIOS 0])
  else ([], [])

/-- The whole of `main` (src/main.rs lines 124-187): the euid-0 check, the
CPU-signature check, the unconditional MSR_PLATFORM_INFO read, the
get/set mutual-exclusion check, the programmability check, and then the
three read/report stages.  The result is the outcome together with the
final register contents and the ordered trace of MSR accesses. -/
def execute (euid : Nat) (cpu : CpuInfo) (args : Cli) (regs : Regs) :
    Except Error (List ReportItem) × Regs × List Event :=
  if euid ≠ 0 then
    (Except.error Error.insufficientPrivilege, regs, [])
  else if !ensure_cpu_good cpu then
    (Except.error Error.unsupportedPlatform, regs, [])
  else if (args.get_tdp || args.get_tdc) && (args.set_tdp.isSome || args.set_tdc.isSome) then
    (Except.error Error.conflictingRequest, regs, [Event.read MSR_PLATFORM_INFO 0])
  else if (args.set_tdp.isSome || args.set_tdc.isSome) &&
      !(MsrPlatformInfo.decode regs.platform_info).programmable_tdc_tdp then
    (Except.error Error.unsupportedOperation, regs, [Event.read MSR_PLATFORM_INFO 0])
  else
    let s1 := turboLimitsStage args regs
    let s2 := tjmaxStage args s1.2.1
    let s3 := ratiosStage args s1.2.1
    (Except.ok (s1.1 ++ s2.1 ++ s3.1), s1.2.1,
     Event.read MSR_PLATFORM_INFO 0 :: (s1.2.2 ++ s2.2 ++ s3.2))

/-- A CPU that passes `ensure_cpu_good`. -/
def cpuArrandale : CpuInfo := ⟨"GenuineIntel", 0, 6, 37⟩

/-- Registers with the `programmable_tdc_tdp` capability bit (bit 29 of
MSR_PLATFORM_INFO) set and everything else zero. -/
def regsProg : Regs := ⟨2 ^ 29, 0, 0, 0, 0⟩

/-- Registers with the capability bit clear. -/
def regsNoProg : Regs := ⟨0, 0, 0, 0, 0⟩

/-- Registers whose TurboLimits word is `0x8000`: `tdp_override` set,
`tdc_override` clear. -/
def regsTdpOvr : Regs := ⟨0, 0, 0, 0x8000, 0⟩

/-- Registers whose TurboRatios word is `0x1E19`. -/
def regsR1E19 : Regs := ⟨0, 0, 0, 0, 0x1E19⟩

/-! ### Arithmetic facts about the bit-field operations -/

theorem setBits_div_base (x lo w v : Nat) :
    setBits x lo w v / 2 ^ (lo + w) = x / 2 ^ (lo + w) := by
  have hM : 0 < 2 ^ (lo + w) := pow_pos (by norm_num) _
  have hA : x % 2 ^ lo + v % 2 ^ w * 2 ^ lo < 2 ^ (lo + w) := by
    have h1 : x % 2 ^ lo < 2 ^ lo := Nat.mod_lt _ (pow_pos (by norm_num) lo)
    have h2 : v % 2 ^ w < 2 ^ w := Nat.mod_lt _ (pow_pos (by norm_num) w)
    calc x % 2 ^ lo + v % 2 ^ w * 2 ^ lo
        < 2 ^ lo + v % 2 ^ w * 2 ^ lo := by omega
      _ = (v % 2 ^ w + 1) * 2 ^ lo := by ring
      _ ≤ 2 ^ w * 2 ^ lo := Nat.mul_le_mul_right _ (by omega)
      _ = 2 ^ (lo + w) := by rw [pow_add]; ring
  unfold setBits
  rw [Nat.add_mul_div_right _ _ hM, Nat.div_eq_of_lt hA, Nat.zero_add]

/-- Bits at or above position `n ≥ lo + w` are untouched by `setBits`. -/
theorem setBits_div_pow (x lo w v n : Nat) (h : lo + w ≤ n) :
    setBits x lo w v / 2 ^ n = x / 2 ^ n := by
  obtain ⟨k, rfl⟩ : ∃ k, n = (lo + w) + k := ⟨n - (lo + w), by omega⟩
  rw [pow_add, ← Nat.div_div_eq_div_mul, ← Nat.div_div_eq_div_mul, setBits_div_base]

/-- Bits strictly below position `n ≤ lo` are untouched by `setBits`. -/
theorem setBits_mod_pow (x lo w v n : Nat) (h : n ≤ lo) :
    setBits x lo w v % 2 ^ n = x % 2 ^ n := by
  obtain ⟨c, hc⟩ : (2 : Nat) ^ n ∣ 2 ^ lo := pow_dvd_pow 2 h
  obtain ⟨d, hd⟩ : (2 : Nat) ^ n ∣ 2 ^ (lo + w) := pow_dvd_pow 2 (by omega)
  have e : setBits x lo w v
      = x % 2 ^ lo + (v % 2 ^ w * c + x / 2 ^ (lo + w) * d) * 2 ^ n := by
    unfold setBits
    rw [hc, hd]; ring
  rw [e, Nat.add_mul_mod_self_right, Nat.mod_mod_of_dvd x ⟨c, hc⟩]

/-- Reading back the field just written returns the truncated value. -/
theorem getBits_setBits_self (x lo w v : Nat) :
    getBits (setBits x lo w v) lo w = v % 2 ^ w := by
  have h0 : 0 < 2 ^ lo := pow_pos (by norm_num) lo
  have e : setBits x lo w v
      = x % 2 ^ lo + (v % 2 ^ w + x / 2 ^ (lo + w) * 2 ^ w) * 2 ^ lo := by
    unfold setBits
    rw [pow_add]; ring
  unfold getBits
  rw [e, Nat.add_mul_div_right _ _ h0, Nat.div_eq_of_lt (Nat.mod_lt _ h0),
    Nat.zero_add, Nat.add_mul_mod_self_right, Nat.mod_mod_of_dvd v dvd_rfl]

theorem getBits_zero_lo (y w : Nat) : getBits y 0 w = y % 2 ^ w := by
  unfold getBits
  rw [pow_zero, Nat.div_one]



/-! ### Helper lemmas about the stages -/

theorem turboLimitsStage_trace (args : Cli) (regs : Regs) :
    (turboLimitsStage args regs).2.2
      = if args.set_tdp.isSome || args.set_tdc.isSome then
          [Event.read MSR_TURBO_LIMITS 0,
           Event.write MSR_TURBO_LIMITS 0
             (mutatedLimits args (MsrTurboLimits.decode regs.turbo_limits)).val]
        else if args.get_tdp || args.get_tdc then [Event.read MSR_TURBO_LIMITS 0]
        else [] := by
  rcases args with ⟨g1, g2, g3, g4, s1, s2⟩
  unfold turboLimitsStage
  cases s1 <;> cases s2 <;> cases g1 <;> cases g2 <;> simp

theorem turboLimitsStage_regs_of_no_set (args : Cli) (regs : Regs)
    (h1 : args.set_tdp = none) (h2 : args.set_tdc = none) :
    (turboLimitsStage args regs).2.1 = regs := by
  unfold turboLimitsStage
  rw [h1, h2]
  simp
  split <;> rfl

theorem tjmaxStage_trace (args : Cli) (regs : Regs) :
    (tjmaxStage args regs).2
      = if args.get_tjmax then [Event.read MSR_TEMPERATURE_TARGET 0] else [] := by
  unfold tjmaxStage
  split <;> rfl

theorem ratiosStage_trace (args : Cli) (regs : Regs) :
    (ratiosStage args regs).2
      = if args.get_turbo_ratios then [Event.read MSR_TURBO_RATIOS 0] else [] := by
  unfold ratiosStage
  split <;> rfl

/-- Claim C7: for every 64-bit value `r`, decoding `r` into the TurboLimits
typed view and re-encoding it with no field mutation yields exactly `r`.
This holds trivially strongly in the source: the `bitfield!`-generated
struct `MsrTurboLimits(u64)` stores the raw word itself, and `.0` returns
it unchanged. -/
theorem c7_roundtrip (r : Nat) (_h : r < 2 ^ 64) :
    MsrTurboLimits.encode (MsrTurboLimits.decode r) = r := rfl

theorem c7_roundtrip_witness :
    0x123456789ABCDEF < 2 ^ 64 ∧
    MsrTurboLimits.encode (MsrTurboLimits.decode 0x123456789ABCDEF) = 0x123456789ABCDEF :=
  ⟨by norm_num, c7_roundtrip 0x123456789ABCDEF (by norm_num)⟩

/-- Claim C8: for every `set_tdp` value `v` in `[0, 511]`, after the set
mutation (lines 151-153: `set_tdp(v * 8); set_tdp_override(true)`) the
stored raw `tdp` field equals exactly `v * 8`, and converting that field
back to physical units by dividing by 8 recovers exactly `v`.  The division
is modelled in `ℚ`; as `v * 8 ≤ 4088` is exactly representable in `f32` and
division by `8.0` is exact in binary floating point, the source's
`as f32 / 8.0` computes the same value with no rounding error. -/
theorem c8_scale_exact (v : Nat) (m : MsrTurboLimits) (h : v ≤ 511) :
    ((m.set_tdp (v * 8 % 2 ^ 64)).set_tdp_override true).tdp = v * 8 ∧
    ((((m.set_tdp (v * 8 % 2 ^ 64)).set_tdp_override true).tdp : ℚ) / 8 = (v : ℚ)) := by
  have h1 : ((m.set_tdp (v * 8 % 2 ^ 64)).set_tdp_override true).tdp = v * 8 := by
    simp only [MsrTurboLimits.set_tdp, MsrTurboLimits.set_tdp_override, MsrTurboLimits.tdp]
    rw [getBits_zero_lo, setBits_mod_pow _ _ _ _ _ (le_refl 15), ← getBits_zero_lo,
      getBits_setBits_self, Nat.mod_mod_of_dvd _ (pow_dvd_pow 2 (by norm_num))]
    exact Nat.mod_eq_of_lt (by norm_num; omega)
  refine ⟨h1, ?_⟩
  rw [h1]
  push_cast
  field_simp

theorem c8_scale_exact_witness :
    (100 : Nat) ≤ 511 ∧
    (((MsrTurboLimits.decode 0).set_tdp (100 * 8 % 2 ^ 64)).set_tdp_override true).tdp = 100 * 8 ∧
    ((((MsrTurboLimits.decode 0).set_tdp (100 * 8 % 2 ^ 64)).set_tdp_override true).tdp : ℚ) / 8
      = (100 : ℚ) :=
  ⟨by norm_num, c8_scale_exact 100 (MsrTurboLimits.decode 0) (by norm_num)⟩

/-- Claim C3 (code-bug evaluation): the claim says a `get_tdc` request
reports the raw `tdc` field divided by 8 together with the override-status
boolean of the TDC quantity (the `tdc_override` bit).  The code (line 149)
instead prints the `tdp_override` bit in the `get_tdc` branch.  At
TurboLimits raw value `0x8000` (`tdp_override` set, `tdc_override` clear),
the Report contains `turboTdpOverrideStatus true` even though the
`tdc_override` bit of the register just read is `false`, and contains no
`false` override-status entry at all.  The TDC value `tdc / 8` itself is
reported as claimed. -/
theorem c3_code_bug :
    (execute 0 cpuArrandale ⟨false, true, false, false, none, none⟩ regsTdpOvr).1
      = Except.ok [ReportItem.maxTurboTdc 0, ReportItem.turboTdpOverrideStatus true] ∧
    (MsrTurboLimits.decode regsTdpOvr.turbo_limits).tdc_override = false ∧
    (MsrTurboLimits.decode regsTdpOvr.turbo_limits).tdp_override = true ∧
    ReportItem.turboTdpOverrideStatus false
      ∉ [ReportItem.maxTurboTdc 0, ReportItem.turboTdpOverrideStatus true] := by
  refine ⟨?_, by decide, by decide, by decide⟩
  simp [execute, turboLimitsStage, tjmaxStage, ratiosStage, mutatedLimits, regsTdpOvr,
    cpuArrandale, ensure_cpu_good, MsrTurboLimits.decode, MsrTurboLimits.tdc,
    MsrTurboLimits.tdp_override, MsrPlatformInfo.decode, MsrPlatformInfo.programmable_tdc_tdp,
    getBits]

/-- Claim C4 counterexample: with TurboRatios raw `0x00_00_1E_19` the
Report is `[one_core = 25, two_cores = 30]` — it does NOT include
`two_cores = 25` nor `three_cores = 30` as the claim states, because byte 0
(`0x19` = 25) is `one_core` and byte 1 (`0x1E` = 30) is `two_cores`. -/
theorem c4_counterexample :
    (execute 0 cpuArrandale ⟨false, false, false, true, none, none⟩ regsR1E19).1
      = Except.ok [ReportItem.maxRatioOneCore 25, ReportItem.maxRatioTwoCores 30] ∧
    ReportItem.maxRatioTwoCores 25
      ∉ [ReportItem.maxRatioOneCore 25, ReportItem.maxRatioTwoCores 30] ∧
    ReportItem.maxRatioThreeCores 30
      ∉ [ReportItem.maxRatioOneCore 25, ReportItem.maxRatioTwoCores 30] :=
  ⟨by rfl, by decide, by decide⟩

/-- Claim C4 (amended): when the TurboRatios register reads as raw
`0x00_00_1E_19` and `get_turbo_ratios` is requested, the Report includes
`one_core = 25` and `two_cores = 30`, and omits `three_cores` and
`four_cores` entirely (zero-valued per-core-count fields are suppressed,
not displayed as zero). -/
theorem c4_amended (regs : Regs) (h : regs.turbo_ratios = 0x1E19) :
    (execute 0 cpuArrandale ⟨false, false, false, true, none, none⟩ regs).1
      = Except.ok [ReportItem.maxRatioOneCore 25, ReportItem.maxRatioTwoCores 30] := by
  simp [execute, turboLimitsStage, tjmaxStage, ratiosStage, cpuArrandale, ensure_cpu_good,
    MsrTurboRatios.decode, MsrTurboRatios.one_core, MsrTurboRatios.two_cores,
    MsrTurboRatios.three_cores, MsrTurboRatios.four_cores, h, getBits]

theorem c4_amended_witness :
    regsR1E19.turbo_ratios = 0x1E19 ∧
    (execute 0 cpuArrandale ⟨false, false, false, true, none, none⟩ regsR1E19).1
      = Except.ok [ReportItem.maxRatioOneCore 25, ReportItem.maxRatioTwoCores 30] :=
  ⟨rfl, c4_amended regsR1E19 rfl⟩



/-- Claim C1 counterexample: for the request `set_tdp = 512` (a value
exceeding 511) against a programmable platform, `execute` does NOT fail —
there is no `OutOfRange` validation anywhere in the code — and a register
write DOES occur: the word `36864` (`tdp` field `4096 = 512 * 8`,
`tdp_override` set) is written to MSR_TURBO_LIMITS. -/
theorem c1_counterexample :
    (execute 0 cpuArrandale ⟨false, false, false, false, some 512, none⟩ regsProg).1
      = Except.ok [] ∧
    Event.write MSR_TURBO_LIMITS 0 36864
      ∈ (execute 0 cpuArrandale ⟨false, false, false, false, some 512, none⟩ regsProg).2.2 ∧
    (MsrTurboLimits.decode 36864).tdp = 512 * 8 :=
  ⟨by rfl, by decide, by decide⟩

/-- Claim C1 (amended): the code performs no range validation on `set_tdp`
and has no `OutOfRange` error.  For every `set_tdp` value `v` (root, good
CPU, programmable capability set, set-tdp-only request), `execute` succeeds
and performs the TurboLimits write; the stored raw `tdp` field is
`(v * 8) % 2^15` — exactly `v * 8` whenever it fits the 15-bit field, and
silently truncated otherwise. -/
theorem c1_amended (v : Nat) (regs : Regs)
    (hprog : (MsrPlatformInfo.decode regs.platform_info).programmable_tdc_tdp = true) :
    (execute 0 cpuArrandale ⟨false, false, false, false, some v, none⟩ regs).1
      = Except.ok [] ∧
    (execute 0 cpuArrandale ⟨false, false, false, false, some v, none⟩ regs).2.2
      = [Event.read MSR_PLATFORM_INFO 0, Event.read MSR_TURBO_LIMITS 0,
         Event.write MSR_TURBO_LIMITS 0
           (((MsrTurboLimits.decode regs.turbo_limits).set_tdp
               (v * 8 % 2 ^ 64)).set_tdp_override true).val] ∧
    (((MsrTurboLimits.decode regs.turbo_limits).set_tdp
        (v * 8 % 2 ^ 64)).set_tdp_override true).tdp = v * 8 % 2 ^ 15 := by
  refine ⟨?_, ?_, ?_⟩
  · simp [execute, turboLimitsStage, tjmaxStage, ratiosStage, mutatedLimits, cpuArrandale,
      ensure_cpu_good, hprog]
  · simp [execute, turboLimitsStage, tjmaxStage, ratiosStage, mutatedLimits, cpuArrandale,
      ensure_cpu_good, hprog]
  · simp only [MsrTurboLimits.set_tdp, MsrTurboLimits.set_tdp_override, MsrTurboLimits.tdp]
    rw [getBits_zero_lo, setBits_mod_pow _ _ _ _ _ (le_refl 15), ← getBits_zero_lo,
      getBits_setBits_self, Nat.mod_mod_of_dvd _ (pow_dvd_pow 2 (by norm_num))]

theorem c1_amended_witness :
    (MsrPlatformInfo.decode regsProg.platform_info).programmable_tdc_tdp = true ∧
    (execute 0 cpuArrandale ⟨false, false, false, false, some 512, none⟩ regsProg).1
      = Except.ok [] ∧
    (execute 0 cpuArrandale ⟨false, false, false, false, some 512, none⟩ regsProg).2.2
      = [Event.read MSR_PLATFORM_INFO 0, Event.read MSR_TURBO_LIMITS 0,
         Event.write MSR_TURBO_LIMITS 0
           (((MsrTurboLimits.decode regsProg.turbo_limits).set_tdp
               (512 * 8 % 2 ^ 64)).set_tdp_override true).val] ∧
    (((MsrTurboLimits.decode regsProg.turbo_limits).set_tdp
        (512 * 8 % 2 ^ 64)).set_tdp_override true).tdp = 512 * 8 % 2 ^ 15 :=
  ⟨by decide, c1_amended 512 regsProg (by decide)⟩

/-- Claim C2 counterexample: with `get_tdp = true` and `set_tdp = some 100`
`execute` fails with `ConflictingRequest`, but the register-access count
before the failure is not zero: the unconditional PlatformInfo read (line
131, before the check at line 133) has already happened, so the trace is
`[read MSR_PLATFORM_INFO]`, which is non-empty. -/
theorem c2_counterexample :
    (execute 0 cpuArrandale ⟨true, false, false, false, some 100, none⟩ regsProg).1
      = Except.error Error.conflictingRequest ∧
    (execute 0 cpuArrandale ⟨true, false, false, false, some 100, none⟩ regsProg).2.2
      = [Event.read MSR_PLATFORM_INFO 0] ∧
    (execute 0 cpuArrandale ⟨true, false, false, false, some 100, none⟩ regsProg).2.2 ≠ [] :=
  ⟨by rfl, by rfl, by decide⟩

/-- Claim C2 (amended): for every request with both a get flag (`get_tdp`
or `get_tdc`) true and a set option (`set_tdp` or `set_tdc`) present,
`execute` fails with `ConflictingRequest`; exactly one register access
precedes the failure — the unconditional PlatformInfo read — and no other
register is accessed: TurboLimits in particular is neither read nor
written. -/
theorem c2_amended (g1 g2 g3 g4 : Bool) (s1 s2 : Option Nat) (cpu : CpuInfo) (regs : Regs)
    (hcpu : ensure_cpu_good cpu = true)
    (hget : (g1 || g2) = true) (hset : (s1.isSome || s2.isSome) = true) :
    execute 0 cpu ⟨g1, g2, g3, g4, s1, s2⟩ regs
      = (Except.error Error.conflictingRequest, regs, [Event.read MSR_PLATFORM_INFO 0]) := by
  simp [execute, hcpu, hget, hset]

theorem c2_amended_witness :
    ensure_cpu_good cpuArrandale = true ∧ (true || false) = true ∧
    ((some 100 : Option Nat).isSome || (none : Option Nat).isSome) = true ∧
    execute 0 cpuArrandale ⟨true, false, false, false, some 100, none⟩ regsProg
      = (Except.error Error.conflictingRequest, regsProg, [Event.read MSR_PLATFORM_INFO 0]) :=
  ⟨by rfl, by rfl, by rfl,
   c2_amended true false false false (some 100) none cpuArrandale regsProg (by rfl) (by rfl)
     (by rfl)⟩

/-- Claim C5 counterexample: a request containing `set_tdp = some 100` that
also has `get_tdp = true`, against a platform whose `programmable_tdc_tdp`
capability bit is false, fails with `ConflictingRequest` — not with
`UnsupportedOperation` as the claim states for every request containing a
set — because the mutual-exclusion check (line 133) precedes the
capability check (line 137). -/
theorem c5_counterexample :
    (execute 0 cpuArrandale ⟨true, false, false, false, some 100, none⟩ regsNoProg).1
      = Except.error Error.conflictingRequest ∧
    Error.conflictingRequest ≠ Error.unsupportedOperation ∧
    (MsrPlatformInfo.decode regsNoProg.platform_info).programmable_tdc_tdp = false :=
  ⟨by rfl, by decide, by decide⟩

/-- Claim C5 (amended): for every request containing `set_tdp` or `set_tdc`
that does not also request `get_tdp` or `get_tdc` (otherwise
`ConflictingRequest` fires first), if the PlatformInfo capability bit
`programmable_tdc_tdp` is false then `execute` fails with
`UnsupportedOperation`, and the TurboLimits register is never written (and
never read) in that invocation: the only access is the PlatformInfo
read. -/
theorem c5_amended (g3 g4 : Bool) (s1 s2 : Option Nat) (cpu : CpuInfo) (regs : Regs)
    (hcpu : ensure_cpu_good cpu = true)
    (hset : (s1.isSome || s2.isSome) = true)
    (hprog : (MsrPlatformInfo.decode regs.platform_info).programmable_tdc_tdp = false) :
    execute 0 cpu ⟨false, false, g3, g4, s1, s2⟩ regs
      = (Except.error Error.unsupportedOperation, regs, [Event.read MSR_PLATFORM_INFO 0]) := by
  simp [execute, hcpu, hset, hprog]

theorem c5_amended_witness :
    ensure_cpu_good cpuArrandale = true ∧
    ((some 100 : Option Nat).isSome || (none : Option Nat).isSome) = true ∧
    (MsrPlatformInfo.decode regsNoProg.platform_info).programmable_tdc_tdp = false ∧
    execute 0 cpuArrandale ⟨false, false, false, false, some 100, none⟩ regsNoProg
      = (Except.error Error.unsupportedOperation, regsNoProg,
         [Event.read MSR_PLATFORM_INFO 0]) :=
  ⟨by rfl, by rfl, by decide,
   c5_amended false false (some 100) none cpuArrandale regsNoProg (by rfl) (by rfl) (by decide)⟩

/-- Claim C9: for every get-only request (no `set_tdp`, no `set_tdc`),
`execute` leaves the registers unchanged, and hence a second execution
against the resulting (identical) register state returns the identical
result — in particular the identical Report.  The output is a
deterministic function of the request and the register values read. -/
theorem c9_idempotent (euid : Nat) (cpu : CpuInfo) (g1 g2 g3 g4 : Bool) (regs : Regs) :
    (execute euid cpu ⟨g1, g2, g3, g4, none, none⟩ regs).2.1 = regs ∧
    execute euid cpu ⟨g1, g2, g3, g4, none, none⟩
        ((execute euid cpu ⟨g1, g2, g3, g4, none, none⟩ regs).2.1)
      = execute euid cpu ⟨g1, g2, g3, g4, none, none⟩ regs := by
  have h : (execute euid cpu ⟨g1, g2, g3, g4, none, none⟩ regs).2.1 = regs := by
    unfold execute
    split_ifs <;> simp [turboLimitsStage_regs_of_no_set]
  exact ⟨h, by rw [h]⟩


/-- The in-memory mutation touches only the requested fields: bits 32-63 are
always preserved, bits 0-15 are preserved when no `set_tdp` was requested,
and bits 16-31 are preserved when no `set_tdc` was requested. -/
theorem mutatedLimits_frame (args : Cli) (tl : MsrTurboLimits) :
    (mutatedLimits args tl).val / 2 ^ 32 = tl.val / 2 ^ 32 ∧
    (args.set_tdp = none → (mutatedLimits args tl).val % 2 ^ 16 = tl.val % 2 ^ 16) ∧
    (args.set_tdc = none →
      (mutatedLimits args tl).val / 2 ^ 16 % 2 ^ 16 = tl.val / 2 ^ 16 % 2 ^ 16) := by
  obtain ⟨g1, g2, g3, g4, s1, s2⟩ := args
  cases s1 with
  | none =>
    cases s2 with
    | none => exact ⟨rfl, fun _ => rfl, fun _ => rfl⟩
    | some b =>
      simp only [mutatedLimits, MsrTurboLimits.set_tdc, MsrTurboLimits.set_tdc_override]
      refine ⟨?_, fun _ => ?_, fun h => Option.noConfusion h⟩
      · rw [setBits_div_pow _ 31 1 _ 32 (by norm_num), setBits_div_pow _ 16 15 _ 32 (by norm_num)]
      · rw [setBits_mod_pow _ 31 1 _ 16 (by norm_num), setBits_mod_pow _ 16 15 _ 16 (by norm_num)]
  | some a =>
    cases s2 with
    | none =>
      simp only [mutatedLimits, MsrTurboLimits.set_tdp, MsrTurboLimits.set_tdp_override]
      refine ⟨?_, fun h => Option.noConfusion h, fun _ => ?_⟩
      · rw [setBits_div_pow _ 15 1 _ 32 (by norm_num), setBits_div_pow _ 0 15 _ 32 (by norm_num)]
      · rw [setBits_div_pow _ 15 1 _ 16 (by norm_num), setBits_div_pow _ 0 15 _ 16 (by norm_num)]
    | some b =>
      simp only [mutatedLimits, MsrTurboLimits.set_tdp, MsrTurboLimits.set_tdp_override,
        MsrTurboLimits.set_tdc, MsrTurboLimits.set_tdc_override]
      refine ⟨?_, fun h => Option.noConfusion h, fun h => Option.noConfusion h⟩
      rw [setBits_div_pow _ 31 1 _ 32 (by norm_num), setBits_div_pow _ 16 15 _ 32 (by norm_num),
        setBits_div_pow _ 15 1 _ 32 (by norm_num), setBits_div_pow _ 0 15 _ 32 (by norm_num)]


/-- Claim C6: every value written back to TurboLimits is derived by
read-modify-write from the value just read: bits 32-63 (including all
reserved bits) always equal the value read, bits 0-15 (the `tdp` field and
`tdp_override` bit) equal the value read whenever `set_tdp` is absent, and
bits 16-31 (the `tdc` field and `tdc_override` bit) equal the value read
whenever `set_tdc` is absent — so the written word differs from the read
word only in the requested field groups. -/
theorem c6_write_frame (euid : Nat) (cpu : CpuInfo) (args : Cli) (regs : Regs)
    (a c w : Nat) (hw : Event.write a c w ∈ (execute euid cpu args regs).2.2) :
    w / 2 ^ 32 = regs.turbo_limits / 2 ^ 32 ∧
    (args.set_tdp = none → w % 2 ^ 16 = regs.turbo_limits % 2 ^ 16) ∧
    (args.set_tdc = none →
      w / 2 ^ 16 % 2 ^ 16 = regs.turbo_limits / 2 ^ 16 % 2 ^ 16) := by
  have hkey : w = (mutatedLimits args (MsrTurboLimits.decode regs.turbo_limits)).val := by
    unfold execute at hw
    split_ifs at hw <;>
      simp only [List.mem_cons, List.mem_append, List.not_mem_nil, or_false] at hw
    · exact absurd hw (by simp)
    · exact absurd hw (by simp)
    rw [turboLimitsStage_trace, tjmaxStage_trace, ratiosStage_trace] at hw
    split_ifs at hw <;> simp_all
  rw [hkey]
  exact mutatedLimits_frame args (MsrTurboLimits.decode regs.turbo_limits)

theorem c6_write_frame_witness :
    (33568 : Nat) / 2 ^ 32 = regsProg.turbo_limits / 2 ^ 32 ∧
    ((some 100 : Option Nat) = none → (33568 : Nat) % 2 ^ 16 = regsProg.turbo_limits % 2 ^ 16) ∧
    ((none : Option Nat) = none →
      (33568 : Nat) / 2 ^ 16 % 2 ^ 16 = regsProg.turbo_limits / 2 ^ 16 % 2 ^ 16) :=
  c6_write_frame 0 cpuArrandale ⟨false, false, false, false, some 100, none⟩ regsProg
    MSR_TURBO_LIMITS 0 33568 (by decide)


/-- Claim C10: every invocation performs at most one register write; any
write targets MSR_TURBO_LIMITS (address 0x1AC) on logical core 0; and a
write occurs (the write count is exactly one) if and only if `set_tdp` or
`set_tdc` is present and all preceding checks passed: effective uid 0, a
supported CPU, no conflicting get, and the `programmable_tdc_tdp`
capability bit set. -/
theorem c10_single_write (euid : Nat) (cpu : CpuInfo) (g1 g2 g3 g4 : Bool)
    (s1 s2 : Option Nat) (regs : Regs) :
    (writesIn (execute euid cpu ⟨g1, g2, g3, g4, s1, s2⟩ regs).2.2).length ≤ 1 ∧
    (∀ a c v, Event.write a c v ∈ (execute euid cpu ⟨g1, g2, g3, g4, s1, s2⟩ regs).2.2 →
      a = MSR_TURBO_LIMITS ∧ c = 0) ∧
    ((writesIn (execute euid cpu ⟨g1, g2, g3, g4, s1, s2⟩ regs).2.2).length = 1 ↔
      (euid = 0 ∧ ensure_cpu_good cpu = true ∧ (s1.isSome || s2.isSome) = true ∧
       (g1 || g2) = false ∧
       (MsrPlatformInfo.decode regs.platform_info).programmable_tdc_tdp = true)) := by
  unfold execute
  split_ifs with h1 h2 h3 h4
  · simp_all [writesIn]
  · simp_all [writesIn]
  · refine ⟨by simp [writesIn, Event.isWrite], fun a c v hv => by simp at hv, ?_⟩
    have hz : (writesIn [Event.read MSR_PLATFORM_INFO 0]).length = 0 := by
      simp [writesIn, Event.isWrite]
    rw [hz]
    constructor
    · intro h
      exact absurd h (by norm_num)
    · rintro ⟨-, -, hset, hget, -⟩
      simp only [Bool.and_eq_true] at h3
      rw [hget] at h3
      exact absurd h3.1 (by simp)
  · refine ⟨by simp [writesIn, Event.isWrite], fun a c v hv => by simp at hv, ?_⟩
    have hz : (writesIn [Event.read MSR_PLATFORM_INFO 0]).length = 0 := by
      simp [writesIn, Event.isWrite]
    rw [hz]
    constructor
    · intro h
      exact absurd h (by norm_num)
    · rintro ⟨-, -, -, -, hprog⟩
      simp only [Bool.and_eq_true] at h4
      rw [hprog] at h4
      exact absurd h4.2 (by simp)
  · dsimp only
    rw [turboLimitsStage_trace, tjmaxStage_trace, ratiosStage_trace]
    cases s1 <;> cases s2 <;> cases g1 <;> cases g2 <;> cases g3 <;> cases g4 <;>
      simp_all [writesIn, Event.isWrite]


theorem c10_single_write_witness :
    (writesIn
        (execute 0 cpuArrandale ⟨false, false, false, false, some 100, none⟩ regsProg).2.2).length
      = 1 :=
  (c10_single_write 0 cpuArrandale false false false false (some 100) none regsProg).2.2.mpr
    ⟨rfl, rfl, rfl, rfl, by decide⟩

end Arrctl
